import Mathlib

/-!
Shallow embedding of the `testangel-oracle` engine (src/src/lib.rs).

The engine accumulates typed SQL parameters, guards against dangerous
queries, executes queries against an Oracle connection with the queued
parameters bound positionally, and records evidence of every query run.
The database driver (`oracle` crate) is opaque: it is modelled as
functions carried by the `Connection` value, universally quantified in
the theorems.
-/

namespace TAOracle

/-- Opaque error from the `oracle` driver crate (`oracle::Error`). -/
structure OracleErr where
  code : Nat
deriving DecidableEq, Repr

/-- `enum SqlValue` (src/src/lib.rs lines 14-19): queued parameter values.
`Integer` carries an i64 (the add-parameter instruction widens an i32). -/
inductive SqlValue
  | String (s : String)
  | Integer (i : Int)
  | Boolean (b : Bool)
deriving DecidableEq, Repr

/-- `enum EngineError` (src/src/lib.rs lines 21-31). -/
inductive EngineError
  | PoisonedState
  | Oracle (e : OracleErr)
  | DangerousQuery
  | NotYetConnected
deriving DecidableEq, Repr

/-- One `&dyn ToSql` binding pushed into `sql_params`
(src/src/lib.rs lines 118-125): the driver-facing rendering of a
`SqlValue`, in queue order. -/
inductive Binding
  | str (s : String)
  | int (i : Int)
  | bool (b : Bool)
deriving DecidableEq, Repr

/-- A result row from `Connection::query_row`; `get` is the driver's typed
column extraction (`row.get::<&str, String>` / `row.get::<&str, i32>`),
which can fail (absent column, type mismatch). -/
structure Row where
  getString : String → Except OracleErr String
  getI32 : String → Except OracleErr Int

/-- The opaque `oracle::Connection` capability: `query` executes with
ordered bindings, `queryRow` additionally fetches the first result row. -/
structure Connection where
  query : String → List Binding → Except OracleErr Unit
  queryRow : String → List Binding → Except OracleErr Row

/-- `struct State` (src/src/lib.rs lines 8-12). -/
structure State where
  conn : Option Connection
  params : List SqlValue

/-- `EvidenceContent::Textual` from `testangel_engine`. -/
inductive EvidenceContent
  | Textual (s : String)
deriving DecidableEq, Repr

/-- An evidence record pushed by the execute instructions. -/
structure Evidence where
  label : String
  content : EvidenceContent
deriving DecidableEq, Repr

/-- `ParameterKind` from `testangel_engine`, used in instruction
declarations. -/
inductive ParameterKind
  | String
  | Integer
  | Boolean
deriving DecidableEq, Repr

/-- `ParameterValue` from `testangel_engine`: a value inserted into the
instruction's output map. -/
inductive ParameterValue
  | String (s : String)
  | Integer (i : Int)
  | Boolean (b : Bool)
deriving DecidableEq, Repr

/-- The output map of an instruction call, modelled as an association
list; the host hands the handler a fresh empty map and the handler
inserts at most one entry. -/
abbrev Output := List (String × ParameterValue)

/-! ## Danger guard (src/src/lib.rs lines 100-112, repeated in each
execute instruction) -/

/-- Rust `char::is_whitespace`: the Unicode `White_Space` property, used
by `str::trim`. -/
def isRustWhitespace (c : Char) : Bool :=
  let n := c.toNat
  n == 0x9 || n == 0xa || n == 0xb || n == 0xc || n == 0xd || n == 0x20 ||
  n == 0x85 || n == 0xa0 || n == 0x1680 ||
  (0x2000 ≤ n && n ≤ 0x200a) ||
  n == 0x2028 || n == 0x2029 || n == 0x202f || n == 0x205f || n == 0x3000

/-- Rust `str::trim`: strip leading and trailing whitespace. -/
def trimL (w : List Char) : List Char :=
  ((w.dropWhile isRustWhitespace).reverse.dropWhile isRustWhitespace).reverse

/-- Rust `char::to_ascii_lowercase` on one character. -/
def toAsciiLowerChar (c : Char) : Char :=
  if 'A' ≤ c && c ≤ 'Z' then Char.ofNat (c.toNat + 32) else c

/-- Rust `str::to_ascii_lowercase`. -/
def toAsciiLower (w : List Char) : List Char :=
  w.map toAsciiLowerChar

/-- Rust `str::split(' ')`: split on every single space character;
adjacent separators yield empty tokens, and the empty string yields one
empty token. -/
def splitSpace : List Char → List (List Char)
  | [] => [[]]
  | c :: rest =>
    if c = ' ' then [] :: splitSpace rest
    else
      match splitSpace rest with
      | [] => [[c]]
      | w :: ws => (c :: w) :: ws

/-- `let danger_queries = ["truncate", "delete", "drop"];`
(src/src/lib.rs line 100). -/
def danger_queries : List (List Char) :=
  [String.toList "truncate", String.toList "delete", String.toList "drop"]

/-- The guard loop of each execute instruction (src/src/lib.rs lines
106-111): for each word of `query.split(' ')`, trim it, ASCII-lower-case
it, and compare it for exact equality against the denylist; the early
`return Err(DangerousQuery)` is rendered as `List.any`. -/
def isDangerous (query : String) : Bool :=
  (splitSpace query.toList).any fun word =>
    danger_queries.contains (toAsciiLower (trimL word))

/-! ## Instructions -/

/-- `oracle-connect` (src/src/lib.rs lines 37-52). `connectFn` stands for
the driver's `Connection::connect`; on success the handle replaces any
previous one, on failure the state is untouched and the wrapped driver
error is surfaced. -/
def oracleConnect (connectFn : String → String → String → Except OracleErr Connection)
    (st : State) (username password connect_string : String) :
    Except EngineError Unit × State :=
  match connectFn username password connect_string with
  | Except.error e => (Except.error (EngineError.Oracle e), st)
  | Except.ok c => (Except.ok (), { st with conn := some c })

/-- `oracle-query-add-parameter-string` (src/src/lib.rs lines 55-66):
push `SqlValue::String` onto the queue. -/
def addParameterString (st : State) (sql_param : String) : State :=
  { st with params := st.params ++ [SqlValue.String sql_param] }

/-- `oracle-query-add-parameter-integer` (src/src/lib.rs lines 67-78):
the i32 input is widened (`as i64`) and pushed as `SqlValue::Integer`. -/
def addParameterInteger (st : State) (sql_param : Int) : State :=
  { st with params := st.params ++ [SqlValue.Integer sql_param] }

/-- `oracle-query-add-parameter-boolean` (src/src/lib.rs lines 79-90):
push `SqlValue::Boolean` onto the queue. -/
def addParameterBoolean (st : State) (sql_param : Bool) : State :=
  { st with params := st.params ++ [SqlValue.Boolean sql_param] }

/-- The binding loop of each execute instruction (src/src/lib.rs lines
118-125): each cloned `SqlValue` is pushed as a `&dyn ToSql`, preserving
queue order. -/
def toBindings : List SqlValue → List Binding
  | [] => []
  | SqlValue.String s :: rest => Binding.str s :: toBindings rest
  | SqlValue.Integer i :: rest => Binding.int i :: toBindings rest
  | SqlValue.Boolean b :: rest => Binding.bool b :: toBindings rest

/-- `oracle-query` (src/src/lib.rs lines 93-131): danger guard, then
connection check, then clone-and-clear the queue, then
`conn.query(&query, sql_params)`, then push the evidence record on
success. Returns (result, new state, new evidence list). -/
def oracleQuery (st : State) (query : String) (danger_allowed : Bool)
    (evidence : List Evidence) :
    Except EngineError Unit × State × List Evidence :=
  if !danger_allowed && isDangerous query then
    (Except.error EngineError.DangerousQuery, st, evidence)
  else
    match st.conn with
    | none => (Except.error EngineError.NotYetConnected, st, evidence)
    | some conn =>
      let sql_params_vec := st.params
      let st' : State := { st with params := [] }
      let sql_params := toBindings sql_params_vec
      match conn.query query sql_params with
      | Except.error e => (Except.error (EngineError.Oracle e), st', evidence)
      | Except.ok _ =>
        (Except.ok (), st',
          evidence ++ [⟨"Ran Query", EvidenceContent.Textual query⟩])

/-- `oracle-query-with-string-result` (src/src/lib.rs lines 132-174):
as `oracleQuery`, but `conn.query_row` fetches the first row, evidence
is pushed right after the row is retrieved, and then
`row.get::<_, String>(column)` is inserted into the output; an
extraction failure is surfaced after the evidence push. Returns
(result, new state, new evidence list, new output map). -/
def oracleQueryWithStringResult (st : State) (query column : String)
    (danger_allowed : Bool) (evidence : List Evidence) (output : Output) :
    Except EngineError Unit × State × List Evidence × Output :=
  if !danger_allowed && isDangerous query then
    (Except.error EngineError.DangerousQuery, st, evidence, output)
  else
    match st.conn with
    | none => (Except.error EngineError.NotYetConnected, st, evidence, output)
    | some conn =>
      let sql_params_vec := st.params
      let st' : State := { st with params := [] }
      let sql_params := toBindings sql_params_vec
      match conn.queryRow query sql_params with
      | Except.error e => (Except.error (EngineError.Oracle e), st', evidence, output)
      | Except.ok row =>
        let evidence' := evidence ++ [⟨"Ran Query", EvidenceContent.Textual query⟩]
        match row.getString column with
        | Except.error e => (Except.error (EngineError.Oracle e), st', evidence', output)
        | Except.ok s =>
          (Except.ok (), st', evidence',
            output ++ [("result", ParameterValue.String s)])

/-- `oracle-query-with-integer-result` (src/src/lib.rs lines 175-217):
identical to the string variant except the extraction reads the column
as an i32 and inserts `ParameterValue::Integer`. -/
def oracleQueryWithIntegerResult (st : State) (query column : String)
    (danger_allowed : Bool) (evidence : List Evidence) (output : Output) :
    Except EngineError Unit × State × List Evidence × Output :=
  if !danger_allowed && isDangerous query then
    (Except.error EngineError.DangerousQuery, st, evidence, output)
  else
    match st.conn with
    | none => (Except.error EngineError.NotYetConnected, st, evidence, output)
    | some conn =>
      let sql_params_vec := st.params
      let st' : State := { st with params := [] }
      let sql_params := toBindings sql_params_vec
      match conn.queryRow query sql_params with
      | Except.error e => (Except.error (EngineError.Oracle e), st', evidence, output)
      | Except.ok row =>
        let evidence' := evidence ++ [⟨"Ran Query", EvidenceContent.Textual query⟩]
        match row.getI32 column with
        | Except.error e => (Except.error (EngineError.Oracle e), st', evidence', output)
        | Except.ok i =>
          (Except.ok (), st', evidence',
            output ++ [("result", ParameterValue.Integer i)])

/-! ## Instruction declarations (registration metadata) -/

/-- One `with_parameter`/`with_output` declaration of an instruction. -/
structure InstructionParam where
  id : String
  friendlyName : String
  kind : ParameterKind
deriving DecidableEq, Repr

/-- The registration metadata of an instruction
(`Instruction::new(...).with_parameter(...).with_output(...)`). -/
structure InstructionDecl where
  id : String
  name : String
  description : String
  parameters : List InstructionParam
  outputs : List InstructionParam
deriving DecidableEq, Repr

/-- Declaration of `oracle-query-with-string-result`
(src/src/lib.rs lines 133-137). -/
def oracleQueryWithStringResultDecl : InstructionDecl :=
  { id := "oracle-query-with-string-result"
  , name := "Execute Query with String Result"
  , description := "Execute a query. If the query contains dangerous words, you must allow dangerous queries."
  , parameters :=
      [ ⟨"query", "Query", ParameterKind.String⟩
      , ⟨"column", "Return Column", ParameterKind.String⟩
      , ⟨"dangerous", "Allow Dangerous Queries", ParameterKind.Boolean⟩ ]
  , outputs := [⟨"result", "Result", ParameterKind.String⟩] }

/-- Declaration of `oracle-query-with-integer-result`
(src/src/lib.rs lines 176-180), exactly as registered in the source:
note the `column` input is declared with `ParameterKind::Integer` and
the `result` output with `ParameterKind::String`. -/
def oracleQueryWithIntegerResultDecl : InstructionDecl :=
  { id := "oracle-query-with-integer-result"
  , name := "Execute Query with Integer Result"
  , description := "Execute a query. If the query contains dangerous words, you must allow dangerous queries."
  , parameters :=
      [ ⟨"query", "Query", ParameterKind.String⟩
      , ⟨"column", "Return Column", ParameterKind.Integer⟩
      , ⟨"dangerous", "Allow Dangerous Queries", ParameterKind.Boolean⟩ ]
  , outputs := [⟨"result", "Result", ParameterKind.String⟩] }

/-! ## The host's dry-run dispatch -/

/-- The engine's externally invokable operations (§6 of the spec),
with their typed inputs as the handlers consume them. -/
inductive Operation
  | connect (username password connect_string : String)
  | addParamString (s : String)
  | addParamInteger (i : Int)
  | addParamBoolean (b : Bool)
  | executeQuery (query : String) (danger_allowed : Bool)
  | executeQueryStringResult (query column : String) (danger_allowed : Bool)
  | executeQueryIntegerResult (query column : String) (danger_allowed : Bool)

/-- Modelled from the spec: the zero-value outputs an instruction
returns under dry-run ("execute-with-result returns the type's zero
value", empty string / 0); operations without declared outputs return
an empty output map. -/
def zeroOutput : Operation → Output
  | Operation.executeQueryStringResult _ _ _ => [("result", ParameterValue.String "")]
  | Operation.executeQueryIntegerResult _ _ _ => [("result", ParameterValue.Integer 0)]
  | _ => []

/-- Modelled from the spec: the dry-run ("simulate") dispatch, which
lives in the `testangel_engine` host macro and is absent from src/.
Per §4.5's uniform dry-run contract, when the simulate flag is set the
operation performs no state mutation, no I/O and no evidence emission,
never fails, and the with-result variants return the declared zero
value "regardless of guard or connection state"; otherwise the
instruction handler embedded above runs. The host hands each call a
fresh empty output map. -/
def runOperation (connectFn : String → String → String → Except OracleErr Connection)
    (simulate : Bool) (op : Operation) (st : State) (evidence : List Evidence) :
    Except EngineError Unit × State × List Evidence × Output :=
  if simulate then
    (Except.ok (), st, evidence, zeroOutput op)
  else
    match op with
    | Operation.connect u p cs =>
      let r := oracleConnect connectFn st u p cs
      (r.1, r.2, evidence, [])
    | Operation.addParamString s => (Except.ok (), addParameterString st s, evidence, [])
    | Operation.addParamInteger i => (Except.ok (), addParameterInteger st i, evidence, [])
    | Operation.addParamBoolean b => (Except.ok (), addParameterBoolean st b, evidence, [])
    | Operation.executeQuery q d =>
      let r := oracleQuery st q d evidence
      (r.1, r.2.1, r.2.2, [])
    | Operation.executeQueryStringResult q col d =>
      oracleQueryWithStringResult st q col d evidence []
    | Operation.executeQueryIntegerResult q col d =>
      oracleQueryWithIntegerResult st q col d evidence []

/-! ## Helper definitions for the theorems -/

/-- The driver-facing rendering of one queued value (one arm of the
binding loop). -/
def toBinding : SqlValue → Binding
  | SqlValue.String s => Binding.str s
  | SqlValue.Integer i => Binding.int i
  | SqlValue.Boolean b => Binding.bool b

/-- Apply a sequence of add-parameter instructions in order, each value
dispatched to the add-parameter variant of its kind. -/
def applyAdds (st : State) : List SqlValue → State
  | [] => st
  | SqlValue.String s :: rest => applyAdds (addParameterString st s) rest
  | SqlValue.Integer i :: rest => applyAdds (addParameterInteger st i) rest
  | SqlValue.Boolean b :: rest => applyAdds (addParameterBoolean st b) rest

/-- A row whose extractions succeed: string column "Bob", integer
column 42. -/
def rowOk : Row :=
  { getString := fun _ => Except.ok "Bob", getI32 := fun _ => Except.ok 42 }

/-- A row on which every column extraction fails (absent column / type
mismatch), with driver error code 7. -/
def rowBadColumn : Row :=
  { getString := fun _ => Except.error ⟨7⟩, getI32 := fun _ => Except.error ⟨7⟩ }

/-- A connection whose driver calls all succeed, returning `rowOk`. -/
def connOk : Connection :=
  { query := fun _ _ => Except.ok (), queryRow := fun _ _ => Except.ok rowOk }

/-- A connection whose driver calls all fail with error code 1. -/
def connFail : Connection :=
  { query := fun _ _ => Except.error ⟨1⟩, queryRow := fun _ _ => Except.error ⟨1⟩ }

/-- A connection whose queries succeed but whose rows refuse every
column extraction. -/
def connBadColumn : Connection :=
  { query := fun _ _ => Except.ok (), queryRow := fun _ _ => Except.ok rowBadColumn }

/-! ## Basic lemmas -/

theorem toBindings_eq_map (vals : List SqlValue) : toBindings vals = vals.map toBinding := by
  induction vals with
  | nil => rfl
  | cons v rest ih => cases v <;> simp [toBindings, toBinding, ih]

theorem applyAdds_eq (st : State) (vals : List SqlValue) :
    applyAdds st vals = ⟨st.conn, st.params ++ vals⟩ := by
  induction vals generalizing st with
  | nil => simp [applyAdds]
  | cons v rest ih =>
    cases v <;>
      simp [applyAdds, addParameterString, addParameterInteger, addParameterBoolean, ih]

theorem isDangerous_iff (q : String) :
    isDangerous q = true ↔
      ∃ w ∈ splitSpace q.toList, toAsciiLower (trimL w) ∈ danger_queries := by
  simp [isDangerous, List.any_eq_true]

/-! ## Path equations for the execute instructions -/

theorem oracleQuery_guard (st : State) (q : String) (d : Bool) (ev : List Evidence)
    (h : (!d && isDangerous q) = true) :
    oracleQuery st q d ev = (Except.error EngineError.DangerousQuery, st, ev) := by
  simp [oracleQuery, h]

theorem oracleQuery_noConn (st : State) (q : String) (d : Bool) (ev : List Evidence)
    (hg : (!d && isDangerous q) = false) (hc : st.conn = none) :
    oracleQuery st q d ev = (Except.error EngineError.NotYetConnected, st, ev) := by
  simp [oracleQuery, hg, hc]

theorem oracleQuery_conn (st : State) (c : Connection) (q : String) (d : Bool)
    (ev : List Evidence) (hg : (!d && isDangerous q) = false) (hc : st.conn = some c) :
    oracleQuery st q d ev =
      match c.query q (toBindings st.params) with
      | Except.ok _ =>
        (Except.ok (), { st with params := [] },
          ev ++ [⟨"Ran Query", EvidenceContent.Textual q⟩])
      | Except.error e =>
        (Except.error (EngineError.Oracle e), { st with params := [] }, ev) := by
  simp only [oracleQuery, hg, hc, Bool.false_eq_true, if_false]
  cases c.query q (toBindings st.params) <;> rfl

theorem oracleQueryWithStringResult_guard (st : State) (q col : String) (d : Bool)
    (ev : List Evidence) (out : Output) (h : (!d && isDangerous q) = true) :
    oracleQueryWithStringResult st q col d ev out =
      (Except.error EngineError.DangerousQuery, st, ev, out) := by
  simp [oracleQueryWithStringResult, h]

theorem oracleQueryWithStringResult_noConn (st : State) (q col : String) (d : Bool)
    (ev : List Evidence) (out : Output)
    (hg : (!d && isDangerous q) = false) (hc : st.conn = none) :
    oracleQueryWithStringResult st q col d ev out =
      (Except.error EngineError.NotYetConnected, st, ev, out) := by
  simp [oracleQueryWithStringResult, hg, hc]

theorem oracleQueryWithStringResult_conn (st : State) (c : Connection) (q col : String)
    (d : Bool) (ev : List Evidence) (out : Output)
    (hg : (!d && isDangerous q) = false) (hc : st.conn = some c) :
    oracleQueryWithStringResult st q col d ev out =
      match c.queryRow q (toBindings st.params) with
      | Except.error e =>
        (Except.error (EngineError.Oracle e), { st with params := [] }, ev, out)
      | Except.ok row =>
        match row.getString col with
        | Except.error e =>
          (Except.error (EngineError.Oracle e), { st with params := [] },
            ev ++ [⟨"Ran Query", EvidenceContent.Textual q⟩], out)
        | Except.ok s =>
          (Except.ok (), { st with params := [] },
            ev ++ [⟨"Ran Query", EvidenceContent.Textual q⟩],
            out ++ [("result", ParameterValue.String s)]) := by
  simp only [oracleQueryWithStringResult, hg, hc, Bool.false_eq_true, if_false]

theorem oracleQueryWithIntegerResult_guard (st : State) (q col : String) (d : Bool)
    (ev : List Evidence) (out : Output) (h : (!d && isDangerous q) = true) :
    oracleQueryWithIntegerResult st q col d ev out =
      (Except.error EngineError.DangerousQuery, st, ev, out) := by
  simp [oracleQueryWithIntegerResult, h]

theorem oracleQueryWithIntegerResult_noConn (st : State) (q col : String) (d : Bool)
    (ev : List Evidence) (out : Output)
    (hg : (!d && isDangerous q) = false) (hc : st.conn = none) :
    oracleQueryWithIntegerResult st q col d ev out =
      (Except.error EngineError.NotYetConnected, st, ev, out) := by
  simp [oracleQueryWithIntegerResult, hg, hc]

theorem oracleQueryWithIntegerResult_conn (st : State) (c : Connection) (q col : String)
    (d : Bool) (ev : List Evidence) (out : Output)
    (hg : (!d && isDangerous q) = false) (hc : st.conn = some c) :
    oracleQueryWithIntegerResult st q col d ev out =
      match c.queryRow q (toBindings st.params) with
      | Except.error e =>
        (Except.error (EngineError.Oracle e), { st with params := [] }, ev, out)
      | Except.ok row =>
        match row.getI32 col with
        | Except.error e =>
          (Except.error (EngineError.Oracle e), { st with params := [] },
            ev ++ [⟨"Ran Query", EvidenceContent.Textual q⟩], out)
        | Except.ok i =>
          (Except.ok (), { st with params := [] },
            ev ++ [⟨"Ran Query", EvidenceContent.Textual q⟩],
            out ++ [("result", ParameterValue.Integer i)]) := by
  simp only [oracleQueryWithIntegerResult, hg, hc, Bool.false_eq_true, if_false]

theorem oracleQuery_dangerousQuery_iff (st : State) (q : String) (ev : List Evidence) :
    (oracleQuery st q false ev).1 = Except.error EngineError.DangerousQuery ↔
      isDangerous q = true := by
  by_cases h : isDangerous q = true
  · simp [oracleQuery_guard st q false ev (by simp [h]), h]
  · have hb : isDangerous q = false := by simpa using h
    cases hc : st.conn with
    | none => simp [oracleQuery_noConn st q false ev (by simp [hb]) hc, hb]
    | some c =>
      rw [oracleQuery_conn st c q false ev (by simp [hb]) hc]
      cases c.query q (toBindings st.params) <;> simp [hb]

theorem oracleQueryWithStringResult_dangerousQuery_iff (st : State) (q col : String)
    (ev : List Evidence) (out : Output) :
    (oracleQueryWithStringResult st q col false ev out).1 =
        Except.error EngineError.DangerousQuery ↔
      isDangerous q = true := by
  by_cases h : isDangerous q = true
  · simp [oracleQueryWithStringResult_guard st q col false ev out (by simp [h]), h]
  · have hb : isDangerous q = false := by simpa using h
    cases hc : st.conn with
    | none => simp [oracleQueryWithStringResult_noConn st q col false ev out (by simp [hb]) hc, hb]
    | some c =>
      rw [oracleQueryWithStringResult_conn st c q col false ev out (by simp [hb]) hc]
      cases c.queryRow q (toBindings st.params) with
      | error e => simp [hb]
      | ok row => cases hrow : row.getString col <;> simp [hrow, hb]

theorem oracleQueryWithIntegerResult_dangerousQuery_iff (st : State) (q col : String)
    (ev : List Evidence) (out : Output) :
    (oracleQueryWithIntegerResult st q col false ev out).1 =
        Except.error EngineError.DangerousQuery ↔
      isDangerous q = true := by
  by_cases h : isDangerous q = true
  · simp [oracleQueryWithIntegerResult_guard st q col false ev out (by simp [h]), h]
  · have hb : isDangerous q = false := by simpa using h
    cases hc : st.conn with
    | none => simp [oracleQueryWithIntegerResult_noConn st q col false ev out (by simp [hb]) hc, hb]
    | some c =>
      rw [oracleQueryWithIntegerResult_conn st c q col false ev out (by simp [hb]) hc]
      cases c.queryRow q (toBindings st.params) with
      | error e => simp [hb]
      | ok row => cases hrow : row.getI32 col <;> simp [hrow, hb]

/-! ## Claims -/

/-- C1: with the danger-allowed flag false, each execute-query variant fails
with `DangerousQuery` if and only if some token of the query — obtained by
splitting on single-space characters, trimming it and lower-casing it —
exactly equals "truncate", "delete" or "drop"; a token with attached
punctuation such as "DROP;" does not trip the guard, and matching is exact,
not substring ("airdrop now" is safe), while an exact token match such as
"DROP table t" does trip it. -/
theorem c1_danger_guard_exact_token_match :
    (∀ (st : State) (q : String) (ev : List Evidence),
      (oracleQuery st q false ev).1 = Except.error EngineError.DangerousQuery ↔
        ∃ w ∈ splitSpace q.toList, toAsciiLower (trimL w) ∈ danger_queries)
    ∧ (∀ (st : State) (q col : String) (ev : List Evidence) (out : Output),
      (oracleQueryWithStringResult st q col false ev out).1 =
          Except.error EngineError.DangerousQuery ↔
        ∃ w ∈ splitSpace q.toList, toAsciiLower (trimL w) ∈ danger_queries)
    ∧ (∀ (st : State) (q col : String) (ev : List Evidence) (out : Output),
      (oracleQueryWithIntegerResult st q col false ev out).1 =
          Except.error EngineError.DangerousQuery ↔
        ∃ w ∈ splitSpace q.toList, toAsciiLower (trimL w) ∈ danger_queries)
    ∧ isDangerous "DROP; TABLE users" = false
    ∧ isDangerous "airdrop now" = false
    ∧ isDangerous "DROP table t" = true := by
  refine ⟨fun st q ev => ?_, fun st q col ev out => ?_, fun st q col ev out => ?_,
    by decide, by decide, by decide⟩
  · rw [oracleQuery_dangerousQuery_iff, isDangerous_iff]
  · rw [oracleQueryWithStringResult_dangerousQuery_iff, isDangerous_iff]
  · rw [oracleQueryWithIntegerResult_dangerousQuery_iff, isDangerous_iff]

/-- C2: for every execute variant, once the attempt passes the
connection-presence check (the guard passed and a connection is present)
the Parameter Queue is empty afterwards whatever the driver does, and an
attempt that fails the connection-presence check leaves the queue
unchanged. -/
theorem c2_queue_drained_iff_past_connection_check :
    (∀ (st : State) (q : String) (d : Bool) (ev : List Evidence),
      (!d && isDangerous q) = false →
        (∀ c, st.conn = some c → ((oracleQuery st q d ev).2.1).params = [])
        ∧ (st.conn = none → ((oracleQuery st q d ev).2.1).params = st.params))
    ∧ (∀ (st : State) (q col : String) (d : Bool) (ev : List Evidence) (out : Output),
      (!d && isDangerous q) = false →
        (∀ c, st.conn = some c →
          ((oracleQueryWithStringResult st q col d ev out).2.1).params = [])
        ∧ (st.conn = none →
          ((oracleQueryWithStringResult st q col d ev out).2.1).params = st.params))
    ∧ (∀ (st : State) (q col : String) (d : Bool) (ev : List Evidence) (out : Output),
      (!d && isDangerous q) = false →
        (∀ c, st.conn = some c →
          ((oracleQueryWithIntegerResult st q col d ev out).2.1).params = [])
        ∧ (st.conn = none →
          ((oracleQueryWithIntegerResult st q col d ev out).2.1).params = st.params)) := by
  refine ⟨fun st q d ev hg => ⟨fun c hc => ?_, fun hc => ?_⟩,
    fun st q col d ev out hg => ⟨fun c hc => ?_, fun hc => ?_⟩,
    fun st q col d ev out hg => ⟨fun c hc => ?_, fun hc => ?_⟩⟩
  · rw [oracleQuery_conn st c q d ev hg hc]
    cases hq : c.query q (toBindings st.params) <;> simp [hq]
  · rw [oracleQuery_noConn st q d ev hg hc]
  · rw [oracleQueryWithStringResult_conn st c q col d ev out hg hc]
    cases hq : c.queryRow q (toBindings st.params) with
    | error e => simp [hq]
    | ok row => cases hrow : row.getString col <;> simp [hq, hrow]
  · rw [oracleQueryWithStringResult_noConn st q col d ev out hg hc]
  · rw [oracleQueryWithIntegerResult_conn st c q col d ev out hg hc]
    cases hq : c.queryRow q (toBindings st.params) with
    | error e => simp [hq]
    | ok row => cases hrow : row.getI32 col <;> simp [hq, hrow]
  · rw [oracleQueryWithIntegerResult_noConn st q col d ev out hg hc]

/-- C2 witness: with a connection present and the queue holding one value,
executing "SELECT 1" empties the queue; with no connection, the queue is
untouched. -/
theorem c2_queue_drained_iff_past_connection_check_witness :
    (!false && isDangerous "SELECT 1") = false
    ∧ (State.mk (some connOk) [SqlValue.Integer 7]).conn = some connOk
    ∧ ((oracleQuery ⟨some connOk, [SqlValue.Integer 7]⟩ "SELECT 1" false []).2.1).params = []
    ∧ (State.mk none [SqlValue.Integer 7]).conn = none
    ∧ ((oracleQuery ⟨none, [SqlValue.Integer 7]⟩ "SELECT 1" false []).2.1).params =
        [SqlValue.Integer 7] :=
  ⟨by decide, rfl,
    (c2_queue_drained_iff_past_connection_check.1
      ⟨some connOk, [SqlValue.Integer 7]⟩ "SELECT 1" false [] (by decide)).1 connOk rfl,
    rfl,
    (c2_queue_drained_iff_past_connection_check.1
      ⟨none, [SqlValue.Integer 7]⟩ "SELECT 1" false [] (by decide)).2 rfl⟩

/-- C3: parameters are bound positionally in exact insertion order: after
any sequence of add-parameter calls starting from an empty queue, an
execute passes the driver the ordered binding list whose position `i`
holds the rendering of the `i`-th added value; in particular adds of
String "a", Integer 1, Boolean true queue exactly those values in order
and bind as positions 1, 2, 3. -/
theorem c3_positional_binding_in_insertion_order :
    (∀ (c : Connection) (vals : List SqlValue) (q : String) (d : Bool) (ev : List Evidence),
      (!d && isDangerous q) = false →
        oracleQuery (applyAdds ⟨some c, []⟩ vals) q d ev =
          match c.query q (vals.map toBinding) with
          | Except.ok _ =>
            (Except.ok (), ⟨some c, []⟩,
              ev ++ [⟨"Ran Query", EvidenceContent.Textual q⟩])
          | Except.error e => (Except.error (EngineError.Oracle e), ⟨some c, []⟩, ev))
    ∧ (∀ (vals : List SqlValue) (i : Nat), (vals.map toBinding)[i]? = vals[i]?.map toBinding)
    ∧ (∀ (c : Connection),
        (applyAdds ⟨some c, []⟩
            [SqlValue.String "a", SqlValue.Integer 1, SqlValue.Boolean true]).params =
          [SqlValue.String "a", SqlValue.Integer 1, SqlValue.Boolean true])
    ∧ toBindings [SqlValue.String "a", SqlValue.Integer 1, SqlValue.Boolean true] =
        [Binding.str "a", Binding.int 1, Binding.bool true] := by
  refine ⟨fun c vals q d ev hg => ?_, fun vals i => ?_, fun c => ?_, rfl⟩
  · have hst : applyAdds ⟨some c, []⟩ vals = ⟨some c, vals⟩ := by
      rw [applyAdds_eq]; rfl
    rw [hst, oracleQuery_conn ⟨some c, vals⟩ c q d ev hg rfl, toBindings_eq_map]
  · simp
  · rw [applyAdds_eq]; rfl

/-- C3 witness: after adding String "a", Integer 1, Boolean true, executing
a benign query against the always-succeeding driver consumes exactly the
bindings str "a", int 1, bool true and succeeds. -/
theorem c3_positional_binding_in_insertion_order_witness :
    (!false && isDangerous "SELECT name FROM t WHERE id = :id") = false
    ∧ oracleQuery
        (applyAdds ⟨some connOk, []⟩
          [SqlValue.String "a", SqlValue.Integer 1, SqlValue.Boolean true])
        "SELECT name FROM t WHERE id = :id" false [] =
        (Except.ok (), ⟨some connOk, []⟩,
          [⟨"Ran Query", EvidenceContent.Textual "SELECT name FROM t WHERE id = :id"⟩]) :=
  ⟨by decide,
    (c3_positional_binding_in_insertion_order.1 connOk
      [SqlValue.String "a", SqlValue.Integer 1, SqlValue.Boolean true]
      "SELECT name FROM t WHERE id = :id" false [] (by decide)).trans rfl⟩

/-- C4: past the checks, each execute variant appends exactly one evidence
record — label "Ran Query", content the literal submitted query string —
when (and only when) the driver execution succeeds (for the with-result
variants: when the row retrieval succeeds), appending at the end of the
log so records appear in execution order; the last conjunct runs two
queries in sequence and observes their records in that order. -/
theorem c4_one_evidence_record_per_success :
    (∀ (st : State) (c : Connection) (q : String) (d : Bool) (ev : List Evidence),
      (!d && isDangerous q) = false → st.conn = some c →
        (oracleQuery st q d ev).2.2 =
          ev ++ (match c.query q (toBindings st.params) with
                 | Except.ok _ => [⟨"Ran Query", EvidenceContent.Textual q⟩]
                 | Except.error _ => []))
    ∧ (∀ (st : State) (c : Connection) (q col : String) (d : Bool) (ev : List Evidence)
        (out : Output),
      (!d && isDangerous q) = false → st.conn = some c →
        (oracleQueryWithStringResult st q col d ev out).2.2.1 =
          ev ++ (match c.queryRow q (toBindings st.params) with
                 | Except.ok _ => [⟨"Ran Query", EvidenceContent.Textual q⟩]
                 | Except.error _ => []))
    ∧ (∀ (st : State) (c : Connection) (q col : String) (d : Bool) (ev : List Evidence)
        (out : Output),
      (!d && isDangerous q) = false → st.conn = some c →
        (oracleQueryWithIntegerResult st q col d ev out).2.2.1 =
          ev ++ (match c.queryRow q (toBindings st.params) with
                 | Except.ok _ => [⟨"Ran Query", EvidenceContent.Textual q⟩]
                 | Except.error _ => []))
    ∧ (∀ (st : State) (c : Connection) (q1 q2 : String) (ev : List Evidence),
      isDangerous q1 = false → isDangerous q2 = false → st.conn = some c →
      c.query q1 (toBindings st.params) = Except.ok () →
      c.query q2 [] = Except.ok () →
        (oracleQuery (oracleQuery st q1 false ev).2.1 q2 false
            (oracleQuery st q1 false ev).2.2).2.2 =
          ev ++ [⟨"Ran Query", EvidenceContent.Textual q1⟩,
                 ⟨"Ran Query", EvidenceContent.Textual q2⟩]) := by
  refine ⟨fun st c q d ev hg hc => ?_, fun st c q col d ev out hg hc => ?_,
    fun st c q col d ev out hg hc => ?_, fun st c q1 q2 ev h1 h2 hc hq1 hq2 => ?_⟩
  · rw [oracleQuery_conn st c q d ev hg hc]
    cases hq : c.query q (toBindings st.params) <;> simp [hq]
  · rw [oracleQueryWithStringResult_conn st c q col d ev out hg hc]
    cases hq : c.queryRow q (toBindings st.params) with
    | error e => simp [hq]
    | ok row => cases hrow : row.getString col <;> simp [hq, hrow]
  · rw [oracleQueryWithIntegerResult_conn st c q col d ev out hg hc]
    cases hq : c.queryRow q (toBindings st.params) with
    | error e => simp [hq]
    | ok row => cases hrow : row.getI32 col <;> simp [hq, hrow]
  · have e1 : oracleQuery st q1 false ev =
        (Except.ok (), { st with params := [] },
          ev ++ [⟨"Ran Query", EvidenceContent.Textual q1⟩]) := by
      rw [oracleQuery_conn st c q1 false ev (by simp [h1]) hc, hq1]
    have hc2 : ({ st with params := [] } : State).conn = some c := hc
    rw [e1]
    dsimp only
    rw [oracleQuery_conn _ c q2 false _ (by simp [h2]) hc2]
    have hb : toBindings ({ st with params := [] } : State).params = [] := rfl
    rw [hb, hq2]
    simp

/-- C4 witness: against the always-succeeding driver one record with the
literal query is appended; against the always-failing driver none is;
running two queries in sequence appends their records in order. -/
theorem c4_one_evidence_record_per_success_witness :
    (!false && isDangerous "SELECT 1") = false
    ∧ (State.mk (some connOk) []).conn = some connOk
    ∧ (oracleQuery ⟨some connOk, []⟩ "SELECT 1" false []).2.2 =
        [⟨"Ran Query", EvidenceContent.Textual "SELECT 1"⟩]
    ∧ (oracleQuery ⟨some connFail, []⟩ "SELECT 1" false []).2.2 = []
    ∧ (oracleQuery (oracleQuery ⟨some connOk, []⟩ "SELECT a FROM t" false []).2.1
          "SELECT b FROM t" false
          (oracleQuery ⟨some connOk, []⟩ "SELECT a FROM t" false []).2.2).2.2 =
        [⟨"Ran Query", EvidenceContent.Textual "SELECT a FROM t"⟩,
         ⟨"Ran Query", EvidenceContent.Textual "SELECT b FROM t"⟩] :=
  ⟨by decide, rfl,
    (c4_one_evidence_record_per_success.1 ⟨some connOk, []⟩ connOk "SELECT 1" false []
      (by decide) rfl).trans rfl,
    (c4_one_evidence_record_per_success.1 ⟨some connFail, []⟩ connFail "SELECT 1" false []
      (by decide) rfl).trans rfl,
    (c4_one_evidence_record_per_success.2.2.2 ⟨some connOk, []⟩ connOk
      "SELECT a FROM t" "SELECT b FROM t" [] (by decide) (by decide) rfl rfl rfl)⟩

/-- C5: in the with-result variants, when the row retrieval succeeds but
the named column's extraction fails, the wrapped extraction error is
returned to the caller and the evidence record has nonetheless been
appended (the append happens between row retrieval and extraction). -/
theorem c5_extraction_failure_still_appends_evidence :
    (∀ (st : State) (c : Connection) (q col : String) (d : Bool) (ev : List Evidence)
        (out : Output) (row : Row) (e : OracleErr),
      (!d && isDangerous q) = false → st.conn = some c →
      c.queryRow q (toBindings st.params) = Except.ok row →
      row.getString col = Except.error e →
        oracleQueryWithStringResult st q col d ev out =
          (Except.error (EngineError.Oracle e), { st with params := [] },
            ev ++ [⟨"Ran Query", EvidenceContent.Textual q⟩], out))
    ∧ (∀ (st : State) (c : Connection) (q col : String) (d : Bool) (ev : List Evidence)
        (out : Output) (row : Row) (e : OracleErr),
      (!d && isDangerous q) = false → st.conn = some c →
      c.queryRow q (toBindings st.params) = Except.ok row →
      row.getI32 col = Except.error e →
        oracleQueryWithIntegerResult st q col d ev out =
          (Except.error (EngineError.Oracle e), { st with params := [] },
            ev ++ [⟨"Ran Query", EvidenceContent.Textual q⟩], out)) := by
  constructor
  · intro st c q col d ev out row e hg hc hrow hget
    rw [oracleQueryWithStringResult_conn st c q col d ev out hg hc]
    simp [hrow, hget]
  · intro st c q col d ev out row e hg hc hrow hget
    rw [oracleQueryWithIntegerResult_conn st c q col d ev out hg hc]
    simp [hrow, hget]

/-- C5 witness: against a driver whose row refuses every extraction, both
with-result variants surface the wrapped driver error while the evidence
record for the query is appended. -/
theorem c5_extraction_failure_still_appends_evidence_witness :
    (!false && isDangerous "SELECT name FROM t") = false
    ∧ connBadColumn.queryRow "SELECT name FROM t" (toBindings []) = Except.ok rowBadColumn
    ∧ rowBadColumn.getString "name" = Except.error ⟨7⟩
    ∧ oracleQueryWithStringResult ⟨some connBadColumn, []⟩ "SELECT name FROM t" "name"
        false [] [] =
        (Except.error (EngineError.Oracle ⟨7⟩), ⟨some connBadColumn, []⟩,
          [⟨"Ran Query", EvidenceContent.Textual "SELECT name FROM t"⟩], [])
    ∧ oracleQueryWithIntegerResult ⟨some connBadColumn, []⟩ "SELECT name FROM t" "name"
        false [] [] =
        (Except.error (EngineError.Oracle ⟨7⟩), ⟨some connBadColumn, []⟩,
          [⟨"Ran Query", EvidenceContent.Textual "SELECT name FROM t"⟩], []) :=
  ⟨by decide, rfl, rfl,
    c5_extraction_failure_still_appends_evidence.1 ⟨some connBadColumn, []⟩ connBadColumn
      "SELECT name FROM t" "name" false [] [] rowBadColumn ⟨7⟩ (by decide) rfl rfl rfl,
    c5_extraction_failure_still_appends_evidence.2 ⟨some connBadColumn, []⟩ connBadColumn
      "SELECT name FROM t" "name" false [] [] rowBadColumn ⟨7⟩ (by decide) rfl rfl rfl⟩

/-- C6: with no Connection Handle present, every execute variant on a
guard-passing attempt fails with `NotYetConnected`, leaving the state
(hence the Parameter Queue), the evidence log and the output map exactly
as they were. -/
theorem c6_not_connected_error_no_changes :
    (∀ (st : State) (q : String) (d : Bool) (ev : List Evidence),
      (!d && isDangerous q) = false → st.conn = none →
        oracleQuery st q d ev = (Except.error EngineError.NotYetConnected, st, ev))
    ∧ (∀ (st : State) (q col : String) (d : Bool) (ev : List Evidence) (out : Output),
      (!d && isDangerous q) = false → st.conn = none →
        oracleQueryWithStringResult st q col d ev out =
          (Except.error EngineError.NotYetConnected, st, ev, out))
    ∧ (∀ (st : State) (q col : String) (d : Bool) (ev : List Evidence) (out : Output),
      (!d && isDangerous q) = false → st.conn = none →
        oracleQueryWithIntegerResult st q col d ev out =
          (Except.error EngineError.NotYetConnected, st, ev, out)) :=
  ⟨fun st q d ev hg hc => oracleQuery_noConn st q d ev hg hc,
   fun st q col d ev out hg hc => oracleQueryWithStringResult_noConn st q col d ev out hg hc,
   fun st q col d ev out hg hc => oracleQueryWithIntegerResult_noConn st q col d ev out hg hc⟩

/-- C6 witness: with no prior connect and a non-empty queue, executing
"SELECT 1" fails with `NotYetConnected` and the state, queue and evidence
are untouched. -/
theorem c6_not_connected_error_no_changes_witness :
    (!false && isDangerous "SELECT 1") = false
    ∧ (State.mk none [SqlValue.String "x"]).conn = none
    ∧ oracleQuery ⟨none, [SqlValue.String "x"]⟩ "SELECT 1" false [] =
        (Except.error EngineError.NotYetConnected, ⟨none, [SqlValue.String "x"]⟩, []) :=
  ⟨by decide, rfl,
    c6_not_connected_error_no_changes.1 ⟨none, [SqlValue.String "x"]⟩ "SELECT 1" false []
      (by decide) rfl⟩

/-- C7: a query with a denylist token, executed with danger-allowed=false,
makes every execute variant fail with `DangerousQuery` with the whole
state (connection and queue), the evidence log and the output map
unchanged — for every state, including ones with no connection, showing
the guard fires before the connection-presence check and before any
drain. -/
theorem c7_dangerous_rejected_before_any_state_change :
    (∀ (st : State) (q : String) (ev : List Evidence), isDangerous q = true →
        oracleQuery st q false ev = (Except.error EngineError.DangerousQuery, st, ev))
    ∧ (∀ (st : State) (q col : String) (ev : List Evidence) (out : Output),
        isDangerous q = true →
        oracleQueryWithStringResult st q col false ev out =
          (Except.error EngineError.DangerousQuery, st, ev, out))
    ∧ (∀ (st : State) (q col : String) (ev : List Evidence) (out : Output),
        isDangerous q = true →
        oracleQueryWithIntegerResult st q col false ev out =
          (Except.error EngineError.DangerousQuery, st, ev, out)) :=
  ⟨fun st q ev h => oracleQuery_guard st q false ev (by simp [h]),
   fun st q col ev out h => oracleQueryWithStringResult_guard st q col false ev out (by simp [h]),
   fun st q col ev out h => oracleQueryWithIntegerResult_guard st q col false ev out (by simp [h])⟩

/-- C7 witness: "DELETE FROM t" with danger-allowed=false fails with
`DangerousQuery` even though no connection exists, and the non-empty
queue, state and evidence are untouched. -/
theorem c7_dangerous_rejected_before_any_state_change_witness :
    isDangerous "DELETE FROM t" = true
    ∧ oracleQuery ⟨none, [SqlValue.Integer 5]⟩ "DELETE FROM t" false [] =
        (Except.error EngineError.DangerousQuery, ⟨none, [SqlValue.Integer 5]⟩, []) :=
  ⟨by decide,
    c7_dangerous_rejected_before_any_state_change.1 ⟨none, [SqlValue.Integer 5]⟩
      "DELETE FROM t" [] (by decide)⟩

/-- C8 counterexample: an execute attempt that fails the
connection-presence check (no prior connect, benign query "SELECT 1",
queue holding one value) leaves the Parameter Queue non-empty — refuting
the claim that the queue is empty after every execute attempt, including
ones that fail the danger guard or the connection-presence check. A
guard-rejected attempt likewise keeps its queued value. -/
theorem c8_counterexample_queue_survives_failed_checks :
    (oracleQuery ⟨none, [SqlValue.Integer 1]⟩ "SELECT 1" false []).1 =
      Except.error EngineError.NotYetConnected
    ∧ ((oracleQuery ⟨none, [SqlValue.Integer 1]⟩ "SELECT 1" false []).2.1).params ≠ []
    ∧ ((oracleQuery ⟨none, [SqlValue.Integer 1]⟩ "DELETE FROM t" false []).2.1).params =
        [SqlValue.Integer 1] := by
  refine ⟨rfl, by decide, rfl⟩

/-- C8 amended: the Parameter Queue is cloned and cleared as one step
exactly when the execution step is reached — every attempt that passes
the danger guard and the connection-presence check leaves the queue empty
regardless of whether the driver execution succeeds or fails, while an
attempt rejected by the guard or by the connection-presence check leaves
the queue unchanged. -/
theorem c8_amended_drain_exactly_past_checks :
    (∀ (st : State) (c : Connection) (q : String) (d : Bool) (ev : List Evidence),
      (!d && isDangerous q) = false → st.conn = some c →
        ((oracleQuery st q d ev).2.1).params = [])
    ∧ (∀ (st : State) (c : Connection) (q col : String) (d : Bool) (ev : List Evidence)
        (out : Output),
      (!d && isDangerous q) = false → st.conn = some c →
        ((oracleQueryWithStringResult st q col d ev out).2.1).params = [])
    ∧ (∀ (st : State) (c : Connection) (q col : String) (d : Bool) (ev : List Evidence)
        (out : Output),
      (!d && isDangerous q) = false → st.conn = some c →
        ((oracleQueryWithIntegerResult st q col d ev out).2.1).params = [])
    ∧ (∀ (st : State) (q : String) (d : Bool) (ev : List Evidence),
      (!d && isDangerous q) = true → ((oracleQuery st q d ev).2.1).params = st.params)
    ∧ (∀ (st : State) (q col : String) (d : Bool) (ev : List Evidence) (out : Output),
      (!d && isDangerous q) = true →
        ((oracleQueryWithStringResult st q col d ev out).2.1).params = st.params)
    ∧ (∀ (st : State) (q col : String) (d : Bool) (ev : List Evidence) (out : Output),
      (!d && isDangerous q) = true →
        ((oracleQueryWithIntegerResult st q col d ev out).2.1).params = st.params)
    ∧ (∀ (st : State) (q : String) (d : Bool) (ev : List Evidence),
      (!d && isDangerous q) = false → st.conn = none →
        ((oracleQuery st q d ev).2.1).params = st.params)
    ∧ (∀ (st : State) (q col : String) (d : Bool) (ev : List Evidence) (out : Output),
      (!d && isDangerous q) = false → st.conn = none →
        ((oracleQueryWithStringResult st q col d ev out).2.1).params = st.params)
    ∧ (∀ (st : State) (q col : String) (d : Bool) (ev : List Evidence) (out : Output),
      (!d && isDangerous q) = false → st.conn = none →
        ((oracleQueryWithIntegerResult st q col d ev out).2.1).params = st.params) := by
  refine ⟨fun st c q d ev hg hc => ?_, fun st c q col d ev out hg hc => ?_,
    fun st c q col d ev out hg hc => ?_,
    fun st q d ev hg => by rw [oracleQuery_guard st q d ev hg],
    fun st q col d ev out hg => by rw [oracleQueryWithStringResult_guard st q col d ev out hg],
    fun st q col d ev out hg => by rw [oracleQueryWithIntegerResult_guard st q col d ev out hg],
    fun st q d ev hg hc => by rw [oracleQuery_noConn st q d ev hg hc],
    fun st q col d ev out hg hc => by rw [oracleQueryWithStringResult_noConn st q col d ev out hg hc],
    fun st q col d ev out hg hc => by rw [oracleQueryWithIntegerResult_noConn st q col d ev out hg hc]⟩
  · rw [oracleQuery_conn st c q d ev hg hc]
    cases hq : c.query q (toBindings st.params) <;> simp [hq]
  · rw [oracleQueryWithStringResult_conn st c q col d ev out hg hc]
    cases hq : c.queryRow q (toBindings st.params) with
    | error e => simp [hq]
    | ok row => cases hrow : row.getString col <;> simp [hq, hrow]
  · rw [oracleQueryWithIntegerResult_conn st c q col d ev out hg hc]
    cases hq : c.queryRow q (toBindings st.params) with
    | error e => simp [hq]
    | ok row => cases hrow : row.getI32 col <;> simp [hq, hrow]

/-- C8 amended witness: past both checks the queue empties even when the
driver fails; a guard-rejected and a connection-rejected attempt keep the
queued value. -/
theorem c8_amended_drain_exactly_past_checks_witness :
    (!false && isDangerous "SELECT 1") = false
    ∧ (State.mk (some connFail) [SqlValue.Boolean true]).conn = some connFail
    ∧ ((oracleQuery ⟨some connFail, [SqlValue.Boolean true]⟩ "SELECT 1" false []).2.1).params = []
    ∧ (!false && isDangerous "DELETE FROM t") = true
    ∧ ((oracleQuery ⟨some connFail, [SqlValue.Boolean true]⟩ "DELETE FROM t" false []).2.1).params =
        [SqlValue.Boolean true]
    ∧ ((oracleQuery ⟨none, [SqlValue.Boolean true]⟩ "SELECT 1" false []).2.1).params =
        [SqlValue.Boolean true] :=
  ⟨by decide, rfl,
    c8_amended_drain_exactly_past_checks.1 ⟨some connFail, [SqlValue.Boolean true]⟩ connFail
      "SELECT 1" false [] (by decide) rfl,
    by decide,
    c8_amended_drain_exactly_past_checks.2.2.2.1 ⟨some connFail, [SqlValue.Boolean true]⟩
      "DELETE FROM t" false [] (by decide),
    c8_amended_drain_exactly_past_checks.2.2.2.2.2.2.1 ⟨none, [SqlValue.Boolean true]⟩
      "SELECT 1" false [] (by decide) rfl⟩

/-- C9: the registration of `oracle-query-with-integer-result` declares
its `column` input with `ParameterKind::Integer` (not text, as the claim
and the spec's interface table state) and its `result` output with
`ParameterKind::String` (not integer-typed); yet its own handler consumes
the column name as a string and, on successful extraction, inserts the
value as `ParameterValue::Integer` — the registration metadata contradicts
the handler. This theorem evaluates both the declaration and the handler
at the failing input. -/
theorem c9_integer_result_declaration_contradicts_handler :
    oracleQueryWithIntegerResultDecl.parameters.map (fun p => (p.id, p.kind)) =
      [("query", ParameterKind.String), ("column", ParameterKind.Integer),
       ("dangerous", ParameterKind.Boolean)]
    ∧ oracleQueryWithIntegerResultDecl.outputs.map (fun p => (p.id, p.kind)) =
        [("result", ParameterKind.String)]
    ∧ (oracleQueryWithIntegerResult ⟨some connOk, []⟩ "SELECT n FROM t" "N" false [] []).2.2.2 =
        [("result", ParameterValue.Integer 42)]
    ∧ oracleQueryWithStringResultDecl.parameters.map (fun p => (p.id, p.kind)) =
        [("query", ParameterKind.String), ("column", ParameterKind.String),
         ("dangerous", ParameterKind.Boolean)] :=
  ⟨rfl, rfl, rfl, rfl⟩

/-- C10: under simulate=true, every operation — connect, the three
add-parameter variants, execute-query and both execute-with-result
variants — leaves the Connection Handle, the Parameter Queue and the
Evidence Sink untouched, performs no driver call, raises no error, and
the with-result variants return the declared type's zero value (empty
string / 0). -/
theorem c10_dry_run_pure_no_op :
    ∀ (connectFn : String → String → String → Except OracleErr Connection)
      (op : Operation) (st : State) (ev : List Evidence),
      runOperation connectFn true op st ev = (Except.ok (), st, ev, zeroOutput op)
      ∧ (∀ (q col : String) (d : Bool),
          zeroOutput (Operation.executeQueryStringResult q col d) =
            [("result", ParameterValue.String "")])
      ∧ (∀ (q col : String) (d : Bool),
          zeroOutput (Operation.executeQueryIntegerResult q col d) =
            [("result", ParameterValue.Integer 0)]) :=
  fun _ _ _ _ => ⟨rfl, fun _ _ _ => rfl, fun _ _ _ => rfl⟩

end TAOracle
